import Mathlib

/-!
Shallow embedding of the `racing` user-space concurrency runtime
(cooperative executor, synchronization primitives, mpsc channels and
non-blocking sockets), together with theorems settling the specified
properties of its primitives.

Each definition is translated from the corresponding Rust source item;
the Rust path is given in the doc comment.
-/

namespace Racing

/-- Result of polling a suspendable computation: `Poll<T>` from the
standard library, as used throughout the crate. -/
inductive MPoll (α : Type) where
  | ready (value : α)
  | pending
deriving DecidableEq, Repr

/- ### Mutex (src/sync/mutex.rs) -/

/-- State of a `Mutex<T>`: the atomic `locked` flag, plus a count of the
`MutexGuard` values handed out and not yet released (the Rust code
represents live guards as values; the counter makes the exclusion
property statable). -/
structure MutexState where
  locked : Bool
  guards : Nat
deriving DecidableEq, Repr

/-- `Mutex::new`: `locked` starts at `false`; no guard exists yet. -/
def MutexState.new : MutexState := { locked := false, guards := 0 }

/-- `self.locked.fetch_and(true, Ordering::SeqCst)`: returns the previous
value and stores `previous AND true`. -/
def fetchAndTrue (locked : Bool) : Bool × Bool := (locked, locked && true)

/-- One poll of the computation returned by `Mutex::lock`
(src/sync/mutex.rs lines 105-114): if `fetch_and(true)` returned `true`
the poll is `Pending`, otherwise a `MutexGuard` is produced. -/
def MutexState.lockPoll (s : MutexState) : MPoll Unit × MutexState :=
  let r := fetchAndTrue s.locked
  if r.1 then (.pending, { s with locked := r.2 })
  else (.ready (), { locked := r.2, guards := s.guards + 1 })

/-- `Mutex::try_lock` (src/sync/mutex.rs lines 116-122): the same
`fetch_and(true)` test, done synchronously; `true` means `WouldBlock`,
`false` means a guard. -/
def MutexState.tryLock (s : MutexState) : Bool × MutexState :=
  let r := fetchAndTrue s.locked
  if r.1 then (false, { s with locked := r.2 })
  else (true, { locked := r.2, guards := s.guards + 1 })

/-- `MutexGuard::drop` and `MutexGuard::unlock`: store `false` into
`locked`; one guard ceases to exist. -/
def MutexState.release (s : MutexState) : MutexState :=
  { locked := false, guards := s.guards - 1 }

/-- C1. The claim says `lock()` succeeds by changing `locked` from `false`
to `true`, so that at most one guard is ever live. In the code the success
path of `lock` and `try_lock` runs `locked.fetch_and(true)`, which stores
`old AND true = old` and so never writes `true`: on a fresh mutex a first
`lock` poll returns a guard yet leaves `locked = false`, a second `lock`
poll with no release in between returns a second guard, and two guards
are live at once. -/
theorem c1_mutex_lock_never_sets_flag :
    (MutexState.lockPoll MutexState.new).1 = .ready ()
    ∧ (MutexState.lockPoll MutexState.new).2.locked = false
    ∧ (MutexState.lockPoll (MutexState.lockPoll MutexState.new).2).1 = .ready ()
    ∧ (MutexState.lockPoll (MutexState.lockPoll MutexState.new).2).2.guards = 2
    ∧ (MutexState.tryLock (MutexState.lockPoll MutexState.new).2).1 = true := by
  decide

/- ### Condvar (src/sync/condvar.rs) -/

/-- `CondvarState`: the monotonic `counter` and the `Vec<usize>` of waiter
ids (`queue`, push at the end). -/
structure CondvarState where
  counter : Nat
  queue : List Nat
deriving DecidableEq, Repr

/-- `Condvar::new`: counter 0, empty queue. -/
def CondvarState.new : CondvarState := { counter := 0, queue := [] }

/-- Waiter enrolment at the top of `poll_wait!`: the waiter takes
`id = counter`, pushes it onto `queue` and increments `counter`; the pair
is (assigned id, new state). -/
def CondvarState.enqueueWaiter (s : CondvarState) : Nat × CondvarState :=
  (s.counter, { counter := s.counter + 1, queue := s.queue ++ [s.counter] })

/-- `Condvar::notify_one` (src/sync/condvar.rs lines 121-123):
`queue.pop()` removes the last element of the `Vec`, if any. -/
def CondvarState.notifyOne (s : CondvarState) : CondvarState :=
  { s with queue := s.queue.dropLast }

/-- `Condvar::notify_all` (src/sync/condvar.rs lines 125-127):
`queue.drain(..)` empties the `Vec`. -/
def CondvarState.notifyAll (s : CondvarState) : CondvarState :=
  { s with queue := [] }

/-- The closure polled inside `Condvar::wait_while` once both internal
locks are re-acquired (src/sync/condvar.rs lines 66-76): `Ready` iff the
id of this waiter is no longer in the queue AND `condition`, evaluated on
the guarded value, returns `true`; otherwise `Pending`. -/
def CondvarState.waitWhileBody (queue : List Nat) (id : Nat)
    (condition : α → Bool) (value : α) : MPoll Unit :=
  if !(queue.contains id) && condition value then .ready () else .pending

/-- The cleanup each `poll_wait!` expansion runs after its inner
`poll_fn` completes (src/sync/condvar.rs lines 172 and 209):
`queue.retain(|id_| id_ == &id)`. -/
def CondvarState.waitCleanup (queue : List Nat) (id : Nat) : List Nat :=
  queue.filter (fun j => j == id)

/-- The condition of scenario S4: the waiter waits while the guarded value
is below five. -/
def belowFive (n : Nat) : Bool := n < 5

/-- C4. The claim says `wait_while(guard, predicate)` returns only after
the predicate has become `false` (a waiter on `|x| x < 5` resumes exactly
when the value reaches 5). The body the code polls is
`!queue.contains(id) && condition(guard)`, so once its id is notified away
the waiter resumes while the predicate is still `true`: with value 0 the
body is `Ready` (predicate `0 < 5` still holds), and with value 5 (the
predicate just turned `false`) the body is `Pending`, so the waiter never
resumes at 5. -/
theorem c4_wait_while_predicate_inverted :
    CondvarState.waitWhileBody [] 0 belowFive 0 = .ready ()
    ∧ CondvarState.waitWhileBody [] 0 belowFive 5 = .pending := by
  decide

/-- C9. `notify_one` leaves the counter unchanged and removes exactly the
last element of the waiter queue (the last-inserted id, since enrolment
pushes at the end), removing nothing when the queue is empty; `notify_all`
leaves the counter unchanged and empties the queue. -/
theorem c9_notify_semantics (s : CondvarState) :
    (CondvarState.notifyOne s).counter = s.counter
    ∧ (CondvarState.notifyAll s).counter = s.counter
    ∧ (CondvarState.notifyAll s).queue = []
    ∧ (s.queue = [] → CondvarState.notifyOne s = s)
    ∧ (∀ q i, s.queue = q ++ [i] → (CondvarState.notifyOne s).queue = q)
    ∧ (CondvarState.notifyOne (CondvarState.enqueueWaiter s).2).queue = s.queue := by
  obtain ⟨c, qs⟩ := s
  refine ⟨rfl, rfl, rfl, ?_, ?_, ?_⟩
  · intro h
    simp only at h
    subst h
    rfl
  · intro q i h
    simp only at h
    subst h
    simp [CondvarState.notifyOne]
  · simp [CondvarState.notifyOne, CondvarState.enqueueWaiter]

/-- Witness for C9 at a concrete state: removing the last of `[4, 7]`
leaves `[4]`, and `notify_one` on an empty queue changes nothing. -/
theorem c9_notify_semantics_witness :
    (CondvarState.notifyOne { counter := 9, queue := [4, 7] }).queue = [4]
    ∧ CondvarState.notifyOne { counter := 9, queue := [] }
        = { counter := 9, queue := [] } :=
  ⟨(c9_notify_semantics { counter := 9, queue := [4, 7] }).2.2.2.2.1 [4] 7 rfl,
   (c9_notify_semantics { counter := 9, queue := [] }).2.2.2.1 rfl⟩

/-- C10. The cleanup run when a wait variant completes retains only ids
equal to the finishing waiter id: every element of the retained queue is
that id (so ids of all other waiters are removed), a queue that still
holds the own id (possible after a timeout, which completes the wait
without the id having been removed) keeps it, and a queue without the own
id is left empty. -/
theorem c10_wait_cleanup_retains_own_id (q : List Nat) (i : Nat) :
    (CondvarState.waitCleanup q i).all (fun j => j == i) = true
    ∧ CondvarState.waitCleanup [0, 1, 2] 1 = [1]
    ∧ CondvarState.waitCleanup [0, 2, 3] 1 = [] := by
  refine ⟨?_, by decide, by decide⟩
  simp only [CondvarState.waitCleanup, List.all_eq_true]
  intro j hj
  exact (List.mem_filter.mp hj).2

/- ### MPSC channels (src/sync/mpsc) -/

/-- Result of `SyncSender::send`: `Ok(())` or `SendError(value)` (the
receiver is gone). -/
inductive SendOutcome where
  | ok
  | sendErr
deriving DecidableEq, Repr

/-- Result of `SyncSender::try_send`: success, `TrySendError::Full` or
`TrySendError::Disconnected`. -/
inductive TrySendOutcome where
  | ok
  | full
  | disconnected
deriving DecidableEq, Repr

/-- One poll of `SyncSender::send` (src/sync/mpsc/sync_sender.rs lines
34-62) with the value still unsent. The receiver is alive iff
`Arc::strong_count(&queue) - Arc::strong_count(&sender) == 1`, which the
model carries as `receiverAlive`; the inner `queue.lock()` always
completes at once because `Mutex::lock` never sets its flag (see
`MutexState.lockPoll`). With the lock held the code keeps the value and
stays `Pending` when `bound >= queue.len()`, and pushes it returning
`Ok` otherwise; a dead receiver returns `SendError` at once. -/
def SyncSender.sendPoll (bound : Nat) (receiverAlive : Bool) (q : List α)
    (v : α) : MPoll SendOutcome × List α :=
  if receiverAlive then
    if bound ≥ q.length then (.pending, q)
    else (.ready .ok, q ++ [v])
  else (.ready .sendErr, q)

/-- `SyncSender::try_send` (src/sync/mpsc/sync_sender.rs lines 64-77):
`Full` when `bound >= queue.len()`, push and `Ok` otherwise,
`Disconnected` when the receiver is gone. -/
def SyncSender.trySend (bound : Nat) (receiverAlive : Bool) (q : List α)
    (v : α) : TrySendOutcome × List α :=
  if receiverAlive then
    if bound ≥ q.length then (.full, q)
    else (.ok, q ++ [v])
  else (.disconnected, q)

/-- C2. The claim says a send into a queue of at most `bound` items
completes, the queue never exceeds `bound + 1` items, and `try_send`
returns `Full` exactly when the queue already holds more than `bound`
items. The comparison in the code is reversed: with `bound = 1` and the
receiver alive, a send into the EMPTY queue stays `Pending` forever and
`try_send` on it returns `Full`, while a send into a queue already
holding two items (more than the bound) appends a third and returns
`Ok`. -/
theorem c2_sync_send_comparison_reversed :
    SyncSender.sendPoll 1 true ([] : List Nat) 7 = (.pending, [])
    ∧ (SyncSender.trySend 1 true ([] : List Nat) 7).1 = .full
    ∧ SyncSender.sendPoll 1 true [10, 20] 7 = (.ready .ok, [10, 20, 7])
    ∧ (SyncSender.trySend 1 true [10, 20] 7).1 = .ok := by
  decide

/-- Result of a `Receiver::recv` poll that completed: a value or
`RecvError` (disconnected). -/
inductive RecvOutcome (α : Type) where
  | ok (value : α)
  | recvErr
deriving DecidableEq, Repr

/-- Result of `Receiver::try_recv`: a value, `TryRecvError::Empty` or
`TryRecvError::Disconnected`. -/
inductive TryRecvOutcome (α : Type) where
  | ok (value : α)
  | empty
  | disconnected
deriving DecidableEq, Repr

/-- One poll of `Receiver::recv` (src/sync/mpsc/receiver.rs lines 27-48).
`Arc::strong_count(&queue) == 1` holds iff no sender handle remains
(`senderCount = 0`); the code tests this FIRST, before looking at the
queue, then pops the head if there is one, else stays `Pending`. The
inner `queue.lock()` always completes at once (see
`MutexState.lockPoll`). -/
def Receiver.recvPoll (senderCount : Nat) (q : List α) :
    MPoll (RecvOutcome α) × List α :=
  if senderCount = 0 then (.ready .recvErr, q)
  else
    match q with
    | [] => (.pending, [])
    | v :: rest => (.ready (.ok v), rest)

/-- `Receiver::try_recv` (src/sync/mpsc/receiver.rs lines 78-88): the
same no-senders test first, then pop-or-`Empty`. -/
def Receiver.tryRecv (senderCount : Nat) (q : List α) :
    TryRecvOutcome α × List α :=
  if senderCount = 0 then (.disconnected, q)
  else
    match q with
    | [] => (.empty, [])
    | v :: rest => (.ok v, rest)

/-- Counterexample to C3. The claim says `recv` fails with a disconnected
error only when no senders remain AND the queue is empty, and that a
non-empty queue is drained even with no senders left. With no senders
and the value 42 still queued, `recv` completes with `RecvError` instead
of popping 42, and `try_recv` returns `Disconnected`. -/
theorem c3_recv_discards_queued_values :
    (Receiver.recvPoll 0 [(42 : Nat)]).1 = .ready .recvErr
    ∧ (Receiver.recvPoll 0 [(42 : Nat)]).1 ≠ .ready (.ok 42)
    ∧ (Receiver.tryRecv 0 [(42 : Nat)]).1 = .disconnected := by
  decide

/-- C3 as amended: `recv` completes with the disconnected error iff no
senders remain, regardless of the queue contents (queued values are then
discarded); while senders remain it pops the head of a non-empty queue
and stays `Pending` on an empty one; `try_recv` returns `Disconnected`
iff no senders remain. -/
theorem c3_recv_checks_disconnect_first (senderCount : Nat) (q : List Nat) :
    ((Receiver.recvPoll senderCount q).1 = .ready .recvErr ↔ senderCount = 0)
    ∧ (senderCount ≠ 0 → ∀ v rest, q = v :: rest →
        Receiver.recvPoll senderCount q = (.ready (.ok v), rest))
    ∧ (senderCount ≠ 0 → q = [] →
        (Receiver.recvPoll senderCount q).1 = .pending)
    ∧ ((Receiver.tryRecv senderCount q).1 = .disconnected ↔ senderCount = 0) := by
  refine ⟨?_, ?_, ?_, ?_⟩
  · constructor
    · intro h
      by_contra hs
      cases q with
      | nil => simp [Receiver.recvPoll, hs] at h
      | cons v rest => simp [Receiver.recvPoll, hs] at h
    · intro h
      simp [Receiver.recvPoll, h]
  · intro hs v rest h
    subst h
    simp [Receiver.recvPoll, hs]
  · intro hs h
    subst h
    simp [Receiver.recvPoll, hs]
  · constructor
    · intro h
      by_contra hs
      cases q with
      | nil => simp [Receiver.tryRecv, hs] at h
      | cons v rest => simp [Receiver.tryRecv, hs] at h
    · intro h
      simp [Receiver.tryRecv, h]

/-- Witness for C3 at concrete inputs: with one sender the queued 5 is
popped, with one sender and an empty queue the poll is `Pending`, and
with no senders `try_recv` is `Disconnected`. -/
theorem c3_recv_checks_disconnect_first_witness :
    Receiver.recvPoll 1 [(5 : Nat)] = (.ready (.ok 5), [])
    ∧ (Receiver.recvPoll 1 ([] : List Nat)).1 = .pending
    ∧ (Receiver.tryRecv 0 ([] : List Nat)).1 = .disconnected :=
  ⟨(c3_recv_checks_disconnect_first 1 [5]).2.1 (by decide) 5 [] rfl,
   (c3_recv_checks_disconnect_first 1 []).2.2.1 (by decide) rfl,
   (c3_recv_checks_disconnect_first 0 []).2.2.2.mpr rfl⟩

/- ### Error kinds and socket primitives (src/net.rs, src/io.rs) -/

/-- The `std::io::ErrorKind` values the crate matches on. -/
inductive ErrKind where
  | wouldBlock
  | interrupted
  | timedOut
  | unexpectedEof
  | invalidInput
  | addrNotAvailable
  | connectionRefused
  | other
deriving DecidableEq, Repr

/-- One poll of the loop body of the `poll_net!` macro (src/net.rs lines
29-35 and 39-45, and the inlined copies in `TcpStream::read`, `write`,
`flush` and `peek`), given the outcome of the underlying non-blocking OS
call this poll: `Ok` completes with the value, `WouldBlock` suspends,
and every other error kind, `Interrupted` included, completes with that
error. -/
def pollNetStep (r : Except ErrKind Nat) : MPoll (Except ErrKind Nat) :=
  match r with
  | .ok n => .ready (.ok n)
  | .error e =>
    match e with
    | .wouldBlock => .pending
    | _ => .ready (.error e)

/-- The loop of `AsyncRead::read_exact` (src/io/read.rs lines 68-97),
driven by the script of outcomes of the underlying `read` calls, each
`Ok n` contributing `n` bytes towards the `bufLen`-byte buffer; `total`
is the accumulator. `Ok 0` and `Err(Interrupted)` both break the loop
with `UnexpectedEof` if the buffer is not exactly filled and `Ok(())`
otherwise; any other error breaks with that error. `none` when the
script runs out before the loop breaks. -/
def readExactLoop (bufLen : Nat) :
    List (Except ErrKind Nat) → Nat → Option (Except ErrKind Unit)
  | [], _ => none
  | .ok 0 :: _, total =>
    some (if total ≠ bufLen then .error .unexpectedEof else .ok ())
  | .ok (n + 1) :: rest, total => readExactLoop bufLen rest (total + (n + 1))
  | .error .interrupted :: _, total =>
    some (if total ≠ bufLen then .error .unexpectedEof else .ok ())
  | .error e :: _, _ => some (.error e)

/-- The loop of `AsyncRead::read_to_end` (src/io/read.rs lines 29-50),
driven the same way; it breaks with `Ok(total)` on `Ok 0` AND on
`Err(Interrupted)`, and with the error on any other error. -/
def readToEndLoop :
    List (Except ErrKind Nat) → Nat → Option (Except ErrKind Nat)
  | [], _ => none
  | .ok 0 :: _, total => some (.ok total)
  | .ok (n + 1) :: rest, total => readToEndLoop rest (total + (n + 1))
  | .error .interrupted :: _, total => some (.ok total)
  | .error e :: _, _ => some (.error e)

/-- Counterexample to C5. The claim says every socket primitive and read
helper retries `Interrupted` internally and never returns it (or a
substitute) to the awaiting task. A socket primitive whose OS call fails
with `Interrupted` completes with that very error, and `read_exact` on a
source that is interrupted once and would then deliver all five
requested bytes returns `UnexpectedEof` instead of retrying the read. -/
theorem c5_interrupted_not_retried :
    pollNetStep (.error .interrupted) = .ready (.error .interrupted)
    ∧ readExactLoop 5 [.error .interrupted, .ok 5] 0
        = some (.error .unexpectedEof) :=
  ⟨rfl, rfl⟩

/-- C5 as amended: the socket primitives absorb only `WouldBlock` (as
`Pending`); every other OS error, `Interrupted` included, is returned
verbatim to the awaiting task. The read helpers do not retry
`Interrupted` either: `read_exact` treats it exactly like end-of-input
(`UnexpectedEof` unless the buffer is already exactly filled), and
`read_to_end` stops and returns `Ok(total)`. -/
theorem c5_would_block_absorbed_interrupted_propagates (e : ErrKind)
    (rest : List (Except ErrKind Nat)) (bufLen total : Nat) :
    (pollNetStep (.error e) = .pending ↔ e = .wouldBlock)
    ∧ (e ≠ .wouldBlock → pollNetStep (.error e) = .ready (.error e))
    ∧ readExactLoop bufLen (.error .interrupted :: rest) total
        = some (if total ≠ bufLen then .error .unexpectedEof else .ok ())
    ∧ readToEndLoop (.error .interrupted :: rest) total = some (.ok total) := by
  refine ⟨?_, ?_, rfl, rfl⟩
  · cases e <;> simp [pollNetStep]
  · intro h
    cases e <;> simp [pollNetStep] at h ⊢

/-- Witness for C5 at concrete inputs: a `TimedOut` OS failure is not
`Pending` and propagates verbatim, an interrupted `read_exact` with 3 of
5 bytes read reports `UnexpectedEof`, and an interrupted `read_to_end`
reports `Ok 3`. -/
theorem c5_would_block_absorbed_witness :
    pollNetStep (.error .timedOut) = .ready (.error .timedOut)
    ∧ readExactLoop 5 [.error .interrupted] 3 = some (.error .unexpectedEof)
    ∧ readToEndLoop [.error .interrupted] 3 = some (.ok 3) :=
  ⟨(c5_would_block_absorbed_interrupted_propagates .timedOut [] 5 3).2.1
      (by decide),
   by
     have h := (c5_would_block_absorbed_interrupted_propagates .timedOut [] 5 3).2.2.1
     simpa using h,
   (c5_would_block_absorbed_interrupted_propagates .timedOut [] 5 3).2.2.2⟩

/- ### TcpStream::connect_timeout (src/net/tcp_stream.rs) -/

/-- Socket addresses, abstracted to a tag. -/
abbrev Addr := Nat

/-- Outcome of one blocking `net::TcpStream::connect_timeout(&address,
timeout)` OS call, with the outcome of the subsequent
`set_nonblocking(true)` call folded in on success. -/
inductive ConnectOutcome where
  | connected (nonblockErr : Option ErrKind)
  | failed (e : ErrKind)
deriving DecidableEq, Repr

/-- Mutable state of the `poll_fn` loop inside
`TcpStream::connect_timeout`: the `VecDeque` of addresses (front at the
head of the list), the recorded `error`, and the per-attempt `timeout`
in milliseconds. -/
structure ConnectState where
  addresses : List Addr
  lastError : Option ErrKind
  timeout : Nat
deriving DecidableEq, Repr

/-- The state on entry: all resolved addresses, no recorded error, a
50 ms first per-attempt timeout. -/
def ConnectState.start (addresses : List Addr) : ConnectState :=
  { addresses := addresses, lastError := none, timeout := 50 }

/-- The stream value `connect_timeout` resolves with: the address that
connected and whether `set_nonblocking(true)` was applied. -/
structure TcpStreamModel where
  addr : Addr
  nonblocking : Bool
deriving DecidableEq, Repr

/-- One poll of the loop in `TcpStream::connect_timeout`
(src/net/tcp_stream.rs lines 29-63), with `os` giving the outcome of the
OS connect for an address at a given per-attempt timeout. Empty deque:
complete with the recorded error if any (taking it), else
`AddrNotAvailable`. Otherwise pop the front address and connect: on
success set non-blocking and complete (or complete with the
`set_nonblocking` error); on `TimedOut` double the timeout (capped at
`maxTimeout`), push the address to the back and stay `Pending`; on any
other error record it, drop the address and stay `Pending`. -/
def connectPoll (os : Addr → Nat → ConnectOutcome) (maxTimeout : Nat)
    (s : ConnectState) : MPoll (Except ErrKind TcpStreamModel) × ConnectState :=
  match s.addresses with
  | [] =>
    (.ready (match s.lastError with
      | some e => .error e
      | none => .error .addrNotAvailable), { s with lastError := none })
  | a :: rest =>
    match os a s.timeout with
    | .connected none =>
      (.ready (.ok { addr := a, nonblocking := true }),
       { s with addresses := rest })
    | .connected (some e) => (.ready (.error e), { s with addresses := rest })
    | .failed e =>
      if e = .timedOut then
        (.pending,
         { addresses := rest ++ [a], lastError := s.lastError,
           timeout := min (s.timeout * 2) maxTimeout })
      else
        (.pending,
         { addresses := rest, lastError := some e, timeout := s.timeout })

/-- Repeated polling of the `connect_timeout` loop, with fuel; `none`
when the loop is still pending after `fuel` polls. -/
def connectRun (os : Addr → Nat → ConnectOutcome) (maxTimeout : Nat) :
    Nat → ConnectState → Option (Except ErrKind TcpStreamModel)
  | 0, _ => none
  | fuel + 1, s =>
    match connectPoll os maxTimeout s with
    | (.ready r, _) => some r
    | (.pending, s2) => connectRun os maxTimeout fuel s2

/-- An OS in which address 0 refuses the connection and address 1
accepts it. -/
def osRefusedThenOk : Addr → Nat → ConnectOutcome := fun a _ =>
  if a = 0 then .failed .connectionRefused else .connected none

/-- Counterexample to C6. The claim says a non-timeout error
short-circuits the address walk and is returned immediately. Against an
address list `[0, 1]` whose first address fails with
`ConnectionRefused`, the first poll does not complete at all: it records
the error and stays `Pending`, and the walk then connects to address 1
and completes with `Ok` — the refused error is never returned. -/
theorem c6_non_timeout_error_does_not_short_circuit :
    (connectPoll osRefusedThenOk 400 (ConnectState.start [0, 1])).1 = .pending
    ∧ (connectPoll osRefusedThenOk 400 (ConnectState.start [0, 1])).2
        = { addresses := [1], lastError := some .connectionRefused, timeout := 50 }
    ∧ connectRun osRefusedThenOk 400 2 (ConnectState.start [0, 1])
        = some (.ok { addr := 1, nonblocking := true }) :=
  ⟨rfl, rfl, rfl⟩

/-- C6 as amended: each poll of the `connect_timeout` walk tries the
front address with the current per-attempt timeout (starting at 50 ms);
on `TimedOut` the timeout doubles capped at `max` and the address is
re-queued at the back; a non-timeout error does NOT short-circuit — it
is recorded as the last error and the walk continues with the remaining
addresses; success puts the socket into non-blocking mode and returns
it; and when the address list drains the result is the last recorded
error, or `AddrNotAvailable` when none was recorded. -/
theorem c6_connect_timeout_walk (os : Addr → Nat → ConnectOutcome)
    (maxTimeout : Nat) (s : ConnectState) (a : Addr) (rest : List Addr)
    (e : ErrKind) :
    (s.addresses = [] → s.lastError = none →
      (connectPoll os maxTimeout s).1 = .ready (.error .addrNotAvailable))
    ∧ (s.addresses = [] → ∀ e0, s.lastError = some e0 →
      (connectPoll os maxTimeout s).1 = .ready (.error e0))
    ∧ (s.addresses = a :: rest → os a s.timeout = .failed .timedOut →
      connectPoll os maxTimeout s
        = (.pending,
           { addresses := rest ++ [a], lastError := s.lastError,
             timeout := min (s.timeout * 2) maxTimeout }))
    ∧ (s.addresses = a :: rest → os a s.timeout = .failed e →
        e ≠ .timedOut →
      connectPoll os maxTimeout s
        = (.pending,
           { addresses := rest, lastError := some e, timeout := s.timeout }))
    ∧ (s.addresses = a :: rest → os a s.timeout = .connected none →
      connectPoll os maxTimeout s
        = (.ready (.ok { addr := a, nonblocking := true }),
           { s with addresses := rest })) := by
  obtain ⟨addrs, le, t⟩ := s
  refine ⟨?_, ?_, ?_, ?_, ?_⟩
  · intro h he
    simp only at h he
    subst h
    subst he
    rfl
  · intro h e0 he
    simp only at h he
    subst h
    subst he
    rfl
  · intro h hos
    simp only at h hos
    subst h
    simp [connectPoll, hos]
  · intro h hos hne
    simp only at h hos
    subst h
    simp [connectPoll, hos, hne]
  · intro h hos
    simp only at h hos
    subst h
    simp [connectPoll, hos]

/-- Witness for C6 at concrete inputs: with `max = 400` and state
`[5, 6]` at timeout 300, a timed-out attempt on 5 re-queues it behind 6
with the timeout capped at 400; a refused attempt records the error and
walks on; draining with a recorded error returns it, draining without
one returns `AddrNotAvailable`; and a successful attempt returns the
non-blocking stream. -/
theorem c6_connect_timeout_walk_witness :
    connectPoll (fun _ _ => .failed .timedOut) 400
        { addresses := [5, 6], lastError := none, timeout := 300 }
      = (.pending, { addresses := [6, 5], lastError := none, timeout := 400 })
    ∧ connectPoll (fun _ _ => .failed .connectionRefused) 400
        { addresses := [5, 6], lastError := none, timeout := 300 }
      = (.pending,
         { addresses := [6], lastError := some .connectionRefused, timeout := 300 })
    ∧ (connectPoll (fun _ _ => .failed .timedOut) 400
        { addresses := [], lastError := some .connectionRefused, timeout := 300 }).1
      = .ready (.error .connectionRefused)
    ∧ (connectPoll (fun _ _ => .failed .timedOut) 400
        { addresses := [], lastError := none, timeout := 300 }).1
      = .ready (.error .addrNotAvailable)
    ∧ connectPoll (fun _ _ => .connected none) 400
        { addresses := [5, 6], lastError := none, timeout := 300 }
      = (.ready (.ok { addr := 5, nonblocking := true }),
         { addresses := [6], lastError := none, timeout := 300 }) :=
  ⟨(c6_connect_timeout_walk (fun _ _ => .failed .timedOut) 400
      { addresses := [5, 6], lastError := none, timeout := 300 } 5 [6]
      .connectionRefused).2.2.1 rfl rfl,
   (c6_connect_timeout_walk (fun _ _ => .failed .connectionRefused) 400
      { addresses := [5, 6], lastError := none, timeout := 300 } 5 [6]
      .connectionRefused).2.2.2.1 rfl rfl (by decide),
   (c6_connect_timeout_walk (fun _ _ => .failed .timedOut) 400
      { addresses := [], lastError := some .connectionRefused, timeout := 300 } 5 []
      .connectionRefused).2.1 rfl .connectionRefused rfl,
   (c6_connect_timeout_walk (fun _ _ => .failed .timedOut) 400
      { addresses := [], lastError := none, timeout := 300 } 5 []
      .connectionRefused).1 rfl rfl,
   (c6_connect_timeout_walk (fun _ _ => .connected none) 400
      { addresses := [5, 6], lastError := none, timeout := 300 } 5 [6]
      .connectionRefused).2.2.2.2 rfl rfl⟩

/- ### RwLock (src/sync/rwlock.rs) -/

/-- `RwLock::new` (src/sync/rwlock.rs lines 136-141): the atomic state
is initialised to `1` (idle). -/
def RwLock.newLocked : Nat := 1

/-- The derived `Default` for `RwLock` (src/sync/rwlock.rs line 124):
field-wise defaults, so the atomic state is `AtomicUsize::default()`,
which is `0`. -/
def RwLock.defaultLocked : Nat := 0

/-- The `fetch_update` closure of `read` and `try_read`: increment iff
the state is `> 0`; `none` means the CAS fails and the reader cannot
acquire. -/
def RwLock.readUpdate (locked : Nat) : Option Nat :=
  if locked > 0 then some (locked + 1) else none

/-- The `fetch_update` closure of `write` and `try_write`: `1` goes to
`0`; `none` means the CAS fails and the writer cannot acquire. -/
def RwLock.writeUpdate (locked : Nat) : Option Nat :=
  if locked = 1 then some 0 else none

/-- Counterexample to C7. The claim says every way of constructing an
`RwLock`, the `Default` instance included, initialises the state to idle
(`1`). The derived `Default` zero-initialises it: the state is `0`, the
writer-held encoding, from which neither a reader nor a writer can
acquire. -/
theorem c7_default_rwlock_not_idle :
    RwLock.defaultLocked ≠ 1
    ∧ RwLock.readUpdate RwLock.defaultLocked = none
    ∧ RwLock.writeUpdate RwLock.defaultLocked = none := by
  decide

/-- C7 as amended: `RwLock::new` initialises the state to idle (`1`),
from which a reader acquires (state becomes `2`) and a writer acquires
(state becomes `0`); the derived `Default` instance instead
zero-initialises the state to `0`, the writer-held encoding, in which
neither readers nor writers can ever acquire. -/
theorem c7_new_idle_default_writer_held :
    RwLock.newLocked = 1
    ∧ RwLock.readUpdate RwLock.newLocked = some 2
    ∧ RwLock.writeUpdate RwLock.newLocked = some 0
    ∧ RwLock.defaultLocked = 0
    ∧ RwLock.readUpdate RwLock.defaultLocked = none
    ∧ RwLock.writeUpdate RwLock.defaultLocked = none := by
  decide

/- ### yield_now (src/thread.rs) -/

/-- `yield_now()` (src/thread.rs lines 83-85) is
`future::ready(()).await`: a computation whose poll is `Ready(())` at
every poll; `pollIndex` is the number of earlier polls. -/
def yieldNowPoll (_pollIndex : Nat) : MPoll Unit := .ready ()

/-- C8. The claim says the computation returned by `yield_now()` is
`Pending` on exactly its first poll and never `Ready` on the very first
poll. The code builds it from `future::ready(())`, which is `Ready(())`
already on the first poll. -/
theorem c8_yield_now_ready_on_first_poll :
    yieldNowPoll 0 = .ready () ∧ yieldNowPoll 1 = .ready () := by
  decide

end Racing
